import Mathlib

/-!
Shallow embedding of `sirocco_api.py`, a thin client for the Sirocco Energy
national API.  Every public function of the module validates its arguments,
builds a URL query string, performs one HTTP GET and classifies the outcome.

The embedding splits each Python function into a pure "prepare" phase
(validation and URL construction, everything that happens before
`requests.get`) and a dispatch phase.  The network is abstracted as an
`HttpOutcome` parameter: the response (status code plus already-parsed JSON
body) or a transport exception, exactly the two cases the Python
`try: requests.get ... except Exception` block distinguishes.

Python dynamic values that reach `int(...)` or an f-string are modelled by
`PyVal`; Python exceptions that the code raises or catches are modelled by
`PyExn`.  Machine integers do not occur (Python ints are unbounded), so
`Int` is used directly.
-/

/-- Parsed JSON values, the shape of `response.json()`. -/
inductive JVal where
  | jNull : JVal
  | jBool : Bool → JVal
  | jInt : Int → JVal
  | jStr : String → JVal
  | jArr : List JVal → JVal
  | jObj : List (String × JVal) → JVal

/-- Python exceptions relevant to this module: `int(...)` raises `ValueError`
on a non-numeric string and `TypeError` on `None` or a list; subscripting a
dict with a missing key raises `KeyError`. -/
inductive PyExn where
  | valueError : String → PyExn
  | typeError : String → PyExn
  | keyError : String → PyExn
deriving DecidableEq

/-- Message of an exception, as Python `str(e)` renders it (for `KeyError`
the stored message already carries the quoted key, matching `str`). -/
def exnMsg : PyExn → String
  | .valueError m => m
  | .typeError m => m
  | .keyError m => m

/-- Python values that callers may pass where the source annotates
`Union[int, str]` or `bool`: the dynamic types exercised by the module. -/
inductive PyVal where
  | pyInt : Int → PyVal
  | pyStr : String → PyVal
  | pyBool : Bool → PyVal
  | pyNone : PyVal
  | pyList : List PyVal → PyVal

mutual

/-- Python `repr` of a value, as far as this module can observe it
(string escaping inside `repr` of a string is not modelled). -/
def pyRepr : PyVal → String
  | .pyInt n => toString n
  | .pyStr s => "'" ++ s ++ "'"
  | .pyBool b => if b then "True" else "False"
  | .pyNone => "None"
  | .pyList xs => "[" ++ String.intercalate ", " (pyReprList xs) ++ "]"

/-- Helper of `pyRepr` for the elements of a list. -/
def pyReprList : List PyVal → List String
  | [] => []
  | x :: xs => pyRepr x :: pyReprList xs

end

/-- Python `str` of a value, the conversion an f-string `f"{run}"` applies:
identity on strings, `repr` otherwise. -/
def fstr : PyVal → String
  | .pyStr s => s
  | v => pyRepr v

/-- ASCII whitespace, the characters Python `int(...)` strips from a
string argument (further unicode whitespace is not modelled). -/
def isSpaceChar (c : Char) : Bool :=
  c == ' ' || c == '\t' || c == '\n' || c == '\r' || c == '\x0b' || c == '\x0c'

/-- Strip whitespace from both ends of a character list. -/
def pyStrip (cs : List Char) : List Char :=
  ((cs.dropWhile isSpaceChar).reverse.dropWhile isSpaceChar).reverse

/-- A nonempty run of decimal digits read as a number. -/
def digitsToNat? (cs : List Char) : Option Nat :=
  if cs ≠ [] ∧ cs.all Char.isDigit then
    some (cs.foldl (fun a c => a * 10 + (c.toNat - 48)) 0)
  else none

/-- Sign handling of Python `int(s)` after stripping. -/
def pyStrToIntCore (cs : List Char) : Option Int :=
  match cs with
  | '-' :: rest => (digitsToNat? rest).map (fun n => -(n : Int))
  | '+' :: rest => (digitsToNat? rest).map (fun n => (n : Int))
  | _ => (digitsToNat? cs).map (fun n => (n : Int))

/-- Python `int(s)` on a string: surrounding whitespace is stripped, an
optional sign is allowed, then a nonempty digit run (digit-group
underscores, rarely relevant here, are not modelled). -/
def pyStrToInt (s : String) : Option Int :=
  pyStrToIntCore (pyStrip s.data)

/-- Python `int(run)`: succeeds on ints, bools and numeric strings, raises
`ValueError` on other strings and `TypeError` on `None` or a list. -/
def pyIntConv : PyVal → Except PyExn Int
  | .pyInt n => .ok n
  | .pyBool b => .ok (if b then 1 else 0)
  | .pyStr s =>
    match pyStrToInt s with
    | some n => .ok n
    | none => .error (.valueError ("invalid literal for int() with base 10: '" ++ s ++ "'"))
  | .pyNone => .error (.typeError "int() argument must be a string, a bytes-like object or a real number, not 'NoneType'")
  | .pyList _ => .error (.typeError "int() argument must be a string, a bytes-like object or a real number, not 'list'")

/-- Number of days in a month, with the Gregorian leap rule, used by the
strict datetime format check. -/
def daysInMonth (y m : Nat) : Nat :=
  if m = 2 then
    if y % 4 = 0 ∧ (y % 100 ≠ 0 ∨ y % 400 = 0) then 29 else 28
  else if m = 4 ∨ m = 6 ∨ m = 9 ∨ m = 11 then 30 else 31

/-- A component of a date string: a nonempty digit run of bounded width,
read as a number. -/
def fieldNat (maxLen : Nat) (cs : List Char) : Option Nat :=
  if 0 < cs.length ∧ cs.length ≤ maxLen ∧ cs.all Char.isDigit then
    digitsToNat? cs
  else none

/-- Split a character list at every occurrence of a separator character,
keeping empty groups (as Python `str.split(sep)` does). -/
def splitOnChar (sep : Char) : List Char → List (List Char)
  | [] => [[]]
  | c :: cs =>
    let r := splitOnChar sep cs
    if c == sep then [] :: r
    else
      match r with
      | [] => [[c]]
      | g :: gs => (c :: g) :: gs

/-- Whether `pd.to_datetime(s, format="%Y-%m-%d %H:%M:%S")` accepts the
string: year, month, day, hour, minute, second fields separated exactly as
in the format, each a digit run (padding optional, as in strptime), with
calendar-valid ranges.  The whole string must be consumed. -/
def isValidDatetime (s : String) : Bool :=
  match splitOnChar ' ' s.data with
  | [d, t] =>
    match splitOnChar '-' d, splitOnChar ':' t with
    | [ys, ms, ds], [hs, mis, ss] =>
      match fieldNat 4 ys, fieldNat 2 ms, fieldNat 2 ds,
            fieldNat 2 hs, fieldNat 2 mis, fieldNat 2 ss with
      | some y, some mo, some da, some h, some mi, some se =>
        decide (1 ≤ mo ∧ mo ≤ 12 ∧ 1 ≤ da ∧ da ≤ daysInMonth y mo ∧
                h ≤ 23 ∧ mi ≤ 59 ∧ se ≤ 59)
      | _, _, _, _, _, _ => false
    | _, _ => false
  | _ => false

/-- Outcome of `pd.to_datetime(x, format=...)` as used in the source: `None`
parses to `NaT` without raising, a string raises `ValueError` exactly when
the format check fails. -/
def pdToDatetimeOk : Option String → Bool
  | none => true
  | some s => isValidDatetime s

/-- Python truthiness of an optional string argument (`if init_date:`):
`None` and the empty string are falsy. -/
def truthyStr : Option String → Bool
  | none => false
  | some s => s ≠ ""

/-- Python truthiness of an optional int argument (`if init_ahead:`):
`None` and `0` are falsy. -/
def truthyInt : Option Int → Bool
  | none => false
  | some n => n ≠ 0

/-- The module-level API version constant. -/
def API_VERSION : String := "v1.1"

/-- The exact run-validation error string returned by the source. -/
def runErrMsg : String :=
  "Error: run must be an integer or a string that can be converted to an integer"

/-- One `if <date>:` block of the source: when `supplied` is truthy the code
calls `pd.to_datetime` on `checked` (in two of the functions `checked` is
`end_date` even inside the `init_date` block — the copy-paste slip is
reproduced by the call sites, not here) and on failure returns the error
string naming `name`; on success the block appends `key` plus the supplied
value to the URL, here returned as the part to append. -/
def datePart (name : String) (supplied checked : Option String) (key : String) :
    Except String String :=
  if truthyStr supplied then
    if pdToDatetimeOk checked then .ok (key ++ supplied.getD "")
    else .error ("Error: " ++ name ++ " must be in the format YYYY-mm-dd HH:MM:SS")
  else .ok ""

/-- One `if <ahead>:` block of the source: when the offset is truthy it is
converted with `int` (identity here, offsets are modelled as ints per the
signature), a negative value raises `ValueError` which the enclosing
`except ValueError` turns into the returned error string, and otherwise
`key` plus the value is appended to the URL. -/
def aheadPart (name : String) (v : Option Int) (key : String) :
    Except String String :=
  if truthyInt v then
    let n := v.getD 0
    if n < 0 then .error ("Error: " ++ name ++ " must be a positive integer")
    else .ok (key ++ toString n)
  else .ok ""

/-- What a Python function body does before `requests.get`: return an error
string, raise an exception, or proceed to the network with a URL. -/
inductive PreOutcome where
  | error : String → PreOutcome
  | raised : PyExn → PreOutcome
  | request : String → PreOutcome
deriving DecidableEq

/-- The network outcome the environment produces for the single
`requests.get` call: a response with status code and parsed body, or a
transport-level exception with its message. -/
inductive HttpOutcome where
  | response : Nat → JVal → HttpOutcome
  | exn : String → HttpOutcome

/-- What a call returns to the Python caller: the parsed JSON body, a dict
built by the projects operation, an error string, or a propagated
exception. -/
inductive PyRet where
  | json : JVal → PyRet
  | pydict : List (JVal × JVal) → PyRet
  | str : String → PyRet
  | raisedExn : PyExn → PyRet

/-- The shared `try: requests.get ... except` tail of every function:
status 200 returns the parsed body, any other status returns the
status-code error string, an exception returns the exception string. -/
def requestOutcome : HttpOutcome → PyRet
  | .response code body =>
    if code == 200 then .json body
    else .str ("Error: Received response with status code " ++ toString code)
  | .exn m => .str ("Error: An exception occurred - " ++ m)

/-- Glue a prepare phase to the dispatch phase: validation errors are
returned as strings, raised exceptions propagate, and a built request is
answered by the environment. -/
def runPrepared : PreOutcome → HttpOutcome → PyRet
  | .error m, _ => .str m
  | .raised e, _ => .raisedExn e
  | .request _, h => requestOutcome h

/-- Base URL of an endpoint with the two always-present query parameters,
interpolated as the f-strings of the source do. -/
def baseUrl (endpoint : String) (run : PyVal) (tz : String) : String :=
  "https://api.sirocco.energy/national/" ++ endpoint ++ "/" ++ API_VERSION ++
    "/?run=" ++ fstr run ++ "&timezone=" ++ tz

/-- Prepare phase of `get_available_timezones`: no parameters, no
validation, the URL is fixed. -/
def get_available_timezones_prepare : PreOutcome :=
  .request ("https://api.sirocco.energy/national/timezones/" ++ API_VERSION ++ "/")

/-- Embedding of `get_available_timezones`. -/
def get_available_timezones (h : HttpOutcome) : PyRet :=
  runPrepared get_available_timezones_prepare h

/-- Prepare phase of `get_forecasts_info`: the source performs no
validation at all — `run` is interpolated into the URL as given. -/
def get_forecasts_info_prepare (run : PyVal) (tz : String) : PreOutcome :=
  .request (baseUrl "forecast" run tz)

/-- Embedding of `get_forecasts_info`. -/
def get_forecasts_info (run : PyVal) (tz : String) (h : HttpOutcome) : PyRet :=
  runPrepared (get_forecasts_info_prepare run tz) h

/-- Prepare phase of `get_selected_forecast`: `int(run)` guarded by
`except ValueError` only, then the two date blocks.  The source's
`init_date` block calls `pd.to_datetime(end_date, ...)` — the `checked`
argument below reproduces that slip. -/
def get_selected_forecast_prepare (run : PyVal) (tz : String)
    (init_date end_date : Option String) : PreOutcome :=
  match pyIntConv run with
  | .error (PyExn.valueError _) => .error runErrMsg
  | .error e => .raised e
  | .ok _ =>
    match datePart "init_date" init_date end_date "&init=" with
    | .error m => .error m
    | .ok p1 =>
      match datePart "end_date" end_date end_date "&end=" with
      | .error m => .error m
      | .ok p2 => .request (baseUrl "selectedforecast" run tz ++ p1 ++ p2)

/-- Embedding of `get_selected_forecast`. -/
def get_selected_forecast (run : PyVal) (tz : String)
    (init_date end_date : Option String) (h : HttpOutcome) : PyRet :=
  runPrepared (get_selected_forecast_prepare run tz init_date end_date) h

/-- Prepare phase of `get_backtests_info`: identical in structure to
`get_selected_forecast` (including the `end_date`-in-the-`init_date`-block
slip), endpoint `backtests`. -/
def get_backtests_info_prepare (run : PyVal) (tz : String)
    (init_date end_date : Option String) : PreOutcome :=
  match pyIntConv run with
  | .error (PyExn.valueError _) => .error runErrMsg
  | .error e => .raised e
  | .ok _ =>
    match datePart "init_date" init_date end_date "&init=" with
    | .error m => .error m
    | .ok p1 =>
      match datePart "end_date" end_date end_date "&end=" with
      | .error m => .error m
      | .ok p2 => .request (baseUrl "backtests" run tz ++ p1 ++ p2)

/-- Embedding of `get_backtests_info`. -/
def get_backtests_info (run : PyVal) (tz : String)
    (init_date end_date : Option String) (h : HttpOutcome) : PyRet :=
  runPrepared (get_backtests_info_prepare run tz init_date end_date) h

/-- Prepare phase of `get_selected_backtests`: run check, the two date
blocks (this function checks the right date in each block), the two
offset blocks, then the ordering check
`if end_ahead and init_ahead and end_ahead <= init_ahead: raise ValueError`
which fires after URL construction but before `requests.get`.  Offsets are
modelled as `Option Int` per the `init_ahead: int = None` signature, so
the `int(...)` reassignment inside each block is the identity. -/
def get_selected_backtests_prepare (run : PyVal)
    (init_date end_date : Option String)
    (init_ahead end_ahead : Option Int) (tz : String) : PreOutcome :=
  match pyIntConv run with
  | .error (PyExn.valueError _) => .error runErrMsg
  | .error e => .raised e
  | .ok _ =>
    match datePart "init_date" init_date init_date "&init=" with
    | .error m => .error m
    | .ok p1 =>
      match datePart "end_date" end_date end_date "&end=" with
      | .error m => .error m
      | .ok p2 =>
        match aheadPart "init_ahead" init_ahead "&init_ahead=" with
        | .error m => .error m
        | .ok p3 =>
          match aheadPart "end_ahead" end_ahead "&end_ahead=" with
          | .error m => .error m
          | .ok p4 =>
            if truthyInt end_ahead ∧ truthyInt init_ahead ∧
                end_ahead.getD 0 ≤ init_ahead.getD 0 then
              .raised (.valueError "Error: end_ahead must be greater than init_ahead")
            else
              .request (baseUrl "selectedbacktests" run tz ++ p1 ++ p2 ++ p3 ++ p4)

/-- Embedding of `get_selected_backtests`. -/
def get_selected_backtests (run : PyVal)
    (init_date end_date : Option String)
    (init_ahead end_ahead : Option Int) (tz : String) (h : HttpOutcome) : PyRet :=
  runPrepared (get_selected_backtests_prepare run init_date end_date init_ahead end_ahead tz) h

mutual

/-- Python `==` on JSON values. -/
def jBeq : JVal → JVal → Bool
  | .jNull, .jNull => true
  | .jBool a, .jBool b => a == b
  | .jInt a, .jInt b => a == b
  | .jStr a, .jStr b => a == b
  | .jArr a, .jArr b => jBeqList a b
  | .jObj a, .jObj b => jBeqFields a b
  | _, _ => false

/-- Elementwise `jBeq` on arrays. -/
def jBeqList : List JVal → List JVal → Bool
  | [], [] => true
  | x :: xs, y :: ys => jBeq x y && jBeqList xs ys
  | _, _ => false

/-- Fieldwise `jBeq` on objects. -/
def jBeqFields : List (String × JVal) → List (String × JVal) → Bool
  | [], [] => true
  | f :: fs, g :: gs => f.1 == g.1 && jBeq f.2 g.2 && jBeqFields fs gs
  | _, _ => false

end

/-- Python subscription `v[k]` on a parsed JSON value: `KeyError` when the
key is absent from an object, `TypeError` when the value is not an
object. -/
def subscr (v : JVal) (k : String) : Except PyExn JVal :=
  match v with
  | .jObj fs =>
    match fs.lookup k with
    | some x => .ok x
    | none => .error (.keyError ("'" ++ k ++ "'"))
  | _ => .error (.typeError "object is not subscriptable")

/-- Whether a JSON value equals the Python string "Success", the test
`response.json()["control"] == "Success"` applies. -/
def isSuccessStr (c : JVal) : Bool :=
  match c with
  | .jStr s => s == "Success"
  | _ => false

/-- The pairs `(p["id"], p["name"])` of the dict comprehension of
`get_my_projects`, in iteration order, with Python exception behaviour on
a malformed element. -/
def projPairs : List JVal → Except PyExn (List (JVal × JVal))
  | [] => .ok []
  | p :: ps => do
    let i ← subscr p "id"
    let n ← subscr p "name"
    let rest ← projPairs ps
    .ok ((i, n) :: rest)

/-- Insert into a Python dict modelled as an association list: an existing
key keeps its position and takes the new value, a new key goes to the
end. -/
def dictUp (d : List (JVal × JVal)) (k v : JVal) : List (JVal × JVal) :=
  if d.any (fun kv => jBeq kv.1 k) then
    d.map (fun kv => if jBeq kv.1 k then (k, v) else kv)
  else d ++ [(k, v)]

/-- Build the dict of a comprehension from its pairs (later value wins on
a duplicate key, as in Python). -/
def dictOfPairs (ps : List (JVal × JVal)) : List (JVal × JVal) :=
  ps.foldl (fun d kv => dictUp d kv.1 kv.2) []

/-- The comprehension source `my_projects["runs"]` followed by the
comprehension pairs: `TypeError` if `runs` is not a list. -/
def runsPairs (body : JVal) : Except PyExn (List (JVal × JVal)) := do
  let rs ← subscr body "runs"
  match rs with
  | .jArr l => projPairs l
  | _ => .error (.typeError "object is not iterable")

/-- Embedding of `get_my_projects`: the `isinstance(return_id_project, bool)`
check raises `ValueError` before the `try` block (so before any network
activity); inside the `try`, a 200 response with the flag set and control
field "Success" is transformed by the dict comprehension, any exception
that transformation raises is caught by the enclosing
`except Exception` and returned as the exception string. -/
def get_my_projects (flag : PyVal) (h : HttpOutcome) : PyRet :=
  match flag with
  | .pyBool b =>
    (match h with
     | .exn m => .str ("Error: An exception occurred - " ++ m)
     | .response code body =>
       if code == 200 then
         if b then
           match subscr body "control" with
           | .error e => .str ("Error: An exception occurred - " ++ exnMsg e)
           | .ok c =>
             if isSuccessStr c then
               match runsPairs body with
               | .error e => .str ("Error: An exception occurred - " ++ exnMsg e)
               | .ok ps => .pydict (dictOfPairs ps)
             else .json body
         else .json body
       else .str ("Error: Received response with status code " ++ toString code))
  | _ => .raisedExn (.valueError "Error: return_id_project must be a boolean")

/-- Property of an optional-string query part: empty when the parameter was
not supplied, and nonempty only as the key followed by the supplied
value. -/
def optPartStr (key : String) (v : Option String) (p : String) : Prop :=
  (v = none → p = "") ∧ (p ≠ "" → ∃ s, v = some s ∧ p = key ++ s)

/-- Property of an optional-int query part: empty when the parameter was
not supplied, and nonempty only as the key followed by the supplied
value. -/
def optPartInt (key : String) (v : Option Int) (p : String) : Prop :=
  (v = none → p = "") ∧ (p ≠ "" → ∃ n, v = some n ∧ p = key ++ toString n)

lemma datePart_ok_spec {name : String} {s c : Option String} {key p : String}
    (h : datePart name s c key = .ok p) : optPartStr key s p := by
  unfold datePart at h
  by_cases t : truthyStr s
  · rw [if_pos t] at h
    by_cases d : pdToDatetimeOk c
    · rw [if_pos d] at h
      injection h with h
      cases s with
      | none => simp [truthyStr] at t
      | some str =>
        exact ⟨fun hn => Option.noConfusion hn, fun _ => ⟨str, rfl, h.symm⟩⟩
    · rw [if_neg d] at h
      cases h
  · rw [if_neg t] at h
    injection h with h
    exact ⟨fun _ => h.symm, fun hp => absurd h.symm hp⟩

lemma aheadPart_ok_spec {name : String} {v : Option Int} {key p : String}
    (h : aheadPart name v key = .ok p) : optPartInt key v p := by
  unfold aheadPart at h
  by_cases t : truthyInt v
  · rw [if_pos t] at h
    by_cases neg : v.getD 0 < 0
    · rw [if_pos neg] at h
      cases h
    · rw [if_neg neg] at h
      injection h with h
      cases v with
      | none => simp [truthyInt] at t
      | some n =>
        exact ⟨fun hn => Option.noConfusion hn, fun _ => ⟨n, rfl, h.symm⟩⟩
  · rw [if_neg t] at h
    injection h with h
    exact ⟨fun _ => h.symm, fun hp => absurd h.symm hp⟩

lemma gsb_prepare_request {run : PyVal} {i_d e_d : Option String}
    {i_a e_a : Option Int} {tz url : String}
    (h : get_selected_backtests_prepare run i_d e_d i_a e_a tz = .request url) :
    ∃ p1 p2 p3 p4,
      url = baseUrl "selectedbacktests" run tz ++ p1 ++ p2 ++ p3 ++ p4 ∧
      datePart "init_date" i_d i_d "&init=" = .ok p1 ∧
      datePart "end_date" e_d e_d "&end=" = .ok p2 ∧
      aheadPart "init_ahead" i_a "&init_ahead=" = .ok p3 ∧
      aheadPart "end_ahead" e_a "&end_ahead=" = .ok p4 := by
  unfold get_selected_backtests_prepare at h
  cases hr : pyIntConv run with
  | error e => cases e <;> simp [hr] at h
  | ok k =>
    simp only [hr] at h
    cases h1 : datePart "init_date" i_d i_d "&init=" with
    | error m => simp [h1] at h
    | ok p1 =>
      simp only [h1] at h
      cases h2 : datePart "end_date" e_d e_d "&end=" with
      | error m => simp [h2] at h
      | ok p2 =>
        simp only [h2] at h
        cases h3 : aheadPart "init_ahead" i_a "&init_ahead=" with
        | error m => simp [h3] at h
        | ok p3 =>
          simp only [h3] at h
          cases h4 : aheadPart "end_ahead" e_a "&end_ahead=" with
          | error m => simp [h4] at h
          | ok p4 =>
            simp only [h4] at h
            by_cases hc : truthyInt e_a ∧ truthyInt i_a ∧ e_a.getD 0 ≤ i_a.getD 0
            · rw [if_pos hc] at h
              cases h
            · rw [if_neg hc] at h
              injection h with hu
              exact ⟨p1, p2, p3, p4, hu.symm, rfl, rfl, rfl, rfl⟩

lemma gsf_prepare_request {run : PyVal} {tz : String} {i_d e_d : Option String}
    {url : String}
    (h : get_selected_forecast_prepare run tz i_d e_d = .request url) :
    ∃ p1 p2, url = baseUrl "selectedforecast" run tz ++ p1 ++ p2 ∧
      datePart "init_date" i_d e_d "&init=" = .ok p1 ∧
      datePart "end_date" e_d e_d "&end=" = .ok p2 := by
  unfold get_selected_forecast_prepare at h
  cases hr : pyIntConv run with
  | error e => cases e <;> simp [hr] at h
  | ok k =>
    simp only [hr] at h
    cases h1 : datePart "init_date" i_d e_d "&init=" with
    | error m => simp [h1] at h
    | ok p1 =>
      simp only [h1] at h
      cases h2 : datePart "end_date" e_d e_d "&end=" with
      | error m => simp [h2] at h
      | ok p2 =>
        simp only [h2] at h
        injection h with hu
        exact ⟨p1, p2, hu.symm, rfl, rfl⟩

lemma gbi_prepare_request {run : PyVal} {tz : String} {i_d e_d : Option String}
    {url : String}
    (h : get_backtests_info_prepare run tz i_d e_d = .request url) :
    ∃ p1 p2, url = baseUrl "backtests" run tz ++ p1 ++ p2 ∧
      datePart "init_date" i_d e_d "&init=" = .ok p1 ∧
      datePart "end_date" e_d e_d "&end=" = .ok p2 := by
  unfold get_backtests_info_prepare at h
  cases hr : pyIntConv run with
  | error e => cases e <;> simp [hr] at h
  | ok k =>
    simp only [hr] at h
    cases h1 : datePart "init_date" i_d e_d "&init=" with
    | error m => simp [h1] at h
    | ok p1 =>
      simp only [h1] at h
      cases h2 : datePart "end_date" e_d e_d "&end=" with
      | error m => simp [h2] at h
      | ok p2 =>
        simp only [h2] at h
        injection h with hu
        exact ⟨p1, p2, hu.symm, rfl, rfl⟩

/-- C1 (counterexample): `get_forecasts_info`, one of the run-accepting
operations the claim quantifies over, performs no run validation at all:
called with the non-numeric string "abc" it builds the URL with the raw
value, proceeds to the network, and on a 200 response returns the body —
it never returns the run error string. -/
theorem C1_counterexample :
    get_forecasts_info_prepare (.pyStr "abc") "UTC" =
      .request "https://api.sirocco.energy/national/forecast/v1.1/?run=abc&timezone=UTC" ∧
    get_forecasts_info (.pyStr "abc") "UTC" (.response 200 .jNull) = .json .jNull ∧
    pyIntConv (.pyStr "abc") =
      .error (.valueError "invalid literal for int() with base 10: 'abc'") ∧
    PyRet.json .jNull ≠ .str runErrMsg :=
  ⟨rfl, rfl, rfl, fun hh => PyRet.noConfusion hh⟩

/-- C1 (amended): for every `run` whose `int` conversion raises
`ValueError`, the three operations that validate `run`
(`get_selected_forecast`, `get_backtests_info`, `get_selected_backtests`)
return the exact run error string before any network request (their
prepare phase already yields the error), while `get_forecasts_info`
performs no run validation and dispatches the request with the raw
value. -/
theorem C1_amended (run : PyVal) (m tz : String) (h : HttpOutcome)
    (hconv : pyIntConv run = .error (.valueError m)) :
    get_selected_forecast run tz none none h = .str runErrMsg ∧
    get_backtests_info run tz none none h = .str runErrMsg ∧
    get_selected_backtests run none none none none tz h = .str runErrMsg ∧
    get_selected_forecast_prepare run tz none none = .error runErrMsg ∧
    get_forecasts_info_prepare run tz = .request (baseUrl "forecast" run tz) := by
  refine ⟨?_, ?_, ?_, ?_, rfl⟩ <;>
    simp [get_selected_forecast, get_backtests_info, get_selected_backtests,
      get_selected_forecast_prepare, get_backtests_info_prepare,
      get_selected_backtests_prepare, runPrepared, hconv]

/-- C1 (witness): the amended statement evaluated at the concrete
non-numeric string "abc". -/
theorem C1_witness :
    get_selected_forecast (.pyStr "abc") "UTC" none none (.response 200 .jNull) =
      .str runErrMsg ∧
    get_backtests_info (.pyStr "abc") "UTC" none none (.response 200 .jNull) =
      .str runErrMsg ∧
    get_selected_backtests (.pyStr "abc") none none none none "UTC" (.response 200 .jNull) =
      .str runErrMsg ∧
    get_selected_forecast_prepare (.pyStr "abc") "UTC" none none = .error runErrMsg ∧
    get_forecasts_info_prepare (.pyStr "abc") "UTC" =
      .request (baseUrl "forecast" (.pyStr "abc") "UTC") :=
  C1_amended (.pyStr "abc") "invalid literal for int() with base 10: 'abc'" "UTC"
    (.response 200 .jNull) rfl

/-- C2 (code bug evaluation): with a malformed `init_date` and no
`end_date`, `get_selected_forecast` and `get_backtests_info` do not return
the init_date error string — their `init_date` block validates `end_date`
(here `None`, which `pd.to_datetime` accepts as `NaT`), so the malformed
value flows into the URL and the request is dispatched; on a 200 response
the body is returned.  `get_selected_backtests`, whose block checks the
right variable, rejects the same input with the error string the claim
describes. -/
theorem C2_code_bug :
    isValidDatetime "garbage" = false ∧
    get_selected_forecast_prepare (.pyInt 1) "UTC" (some "garbage") none =
      .request "https://api.sirocco.energy/national/selectedforecast/v1.1/?run=1&timezone=UTC&init=garbage" ∧
    get_backtests_info_prepare (.pyInt 1) "UTC" (some "garbage") none =
      .request "https://api.sirocco.energy/national/backtests/v1.1/?run=1&timezone=UTC&init=garbage" ∧
    get_selected_forecast (.pyInt 1) "UTC" (some "garbage") none (.response 200 (.jObj [])) =
      .json (.jObj []) ∧
    get_selected_backtests_prepare (.pyInt 1) (some "garbage") none none none "UTC" =
      .error "Error: init_date must be in the format YYYY-mm-dd HH:MM:SS" :=
  ⟨rfl, rfl, rfl, rfl, rfl⟩

/-- C10: for the three operations that convert `run` with `int(...)`, a
value whose conversion raises `TypeError` rather than `ValueError`
(`None`, a list) propagates the exception to the caller — only
`ValueError` is caught — instead of returning the run-validation error
string. -/
theorem C10_typeerror (i_d e_d : Option String) (i_a e_a : Option Int)
    (tz : String) (h : HttpOutcome) :
    get_selected_backtests .pyNone i_d e_d i_a e_a tz h =
      .raisedExn (.typeError "int() argument must be a string, a bytes-like object or a real number, not 'NoneType'") ∧
    get_backtests_info .pyNone tz i_d e_d h =
      .raisedExn (.typeError "int() argument must be a string, a bytes-like object or a real number, not 'NoneType'") ∧
    get_selected_forecast .pyNone tz i_d e_d h =
      .raisedExn (.typeError "int() argument must be a string, a bytes-like object or a real number, not 'NoneType'") ∧
    get_selected_backtests (.pyList []) i_d e_d i_a e_a tz h =
      .raisedExn (.typeError "int() argument must be a string, a bytes-like object or a real number, not 'list'") ∧
    PyRet.raisedExn (.typeError "int() argument must be a string, a bytes-like object or a real number, not 'NoneType'") ≠
      .str runErrMsg :=
  ⟨rfl, rfl, rfl, rfl, fun hh => PyRet.noConfusion hh⟩

/-- C8 (counterexample): the run value placed in the URL is not the
normalized integer: the numeric string "007" passes the `int` check
(converting to 7) but the raw string is interpolated, so the constructed
request differs from the one for the integer 7. -/
theorem C8_counterexample :
    get_selected_backtests_prepare (.pyStr "007") none none none none "UTC" =
      .request "https://api.sirocco.energy/national/selectedbacktests/v1.1/?run=007&timezone=UTC" ∧
    get_selected_backtests_prepare (.pyInt 7) none none none none "UTC" =
      .request "https://api.sirocco.energy/national/selectedbacktests/v1.1/?run=7&timezone=UTC" ∧
    pyIntConv (.pyStr "007") = .ok 7 ∧
    get_selected_backtests_prepare (.pyStr "007") none none none none "UTC" ≠
      get_selected_backtests_prepare (.pyInt 7) none none none none "UTC" := by
  refine ⟨rfl, rfl, rfl, ?_⟩
  decide

/-- C8 (amended): every accepted string `run` is validated to be
integer-convertible but then interpolated into the URL unchanged (the
converted integer is discarded), for each run-validating operation. -/
theorem C8_amended (s : String) (n : Int) (tz : String)
    (hs : pyStrToInt s = some n) :
    get_selected_backtests_prepare (.pyStr s) none none none none tz =
      .request (baseUrl "selectedbacktests" (.pyStr s) tz) ∧
    get_selected_forecast_prepare (.pyStr s) tz none none =
      .request (baseUrl "selectedforecast" (.pyStr s) tz) ∧
    get_backtests_info_prepare (.pyStr s) tz none none =
      .request (baseUrl "backtests" (.pyStr s) tz) ∧
    fstr (.pyStr s) = s := by
  refine ⟨?_, ?_, ?_, rfl⟩ <;>
    simp [get_selected_backtests_prepare, get_selected_forecast_prepare,
      get_backtests_info_prepare, pyIntConv, hs, datePart, aheadPart,
      truthyStr, truthyInt, String.append_empty]

/-- C8 (witness): the amended statement evaluated at the numeric string
"007". -/
theorem C8_witness :
    get_selected_backtests_prepare (.pyStr "007") none none none none "UTC" =
      .request (baseUrl "selectedbacktests" (.pyStr "007") "UTC") ∧
    get_selected_forecast_prepare (.pyStr "007") "UTC" none none =
      .request (baseUrl "selectedforecast" (.pyStr "007") "UTC") ∧
    get_backtests_info_prepare (.pyStr "007") "UTC" none none =
      .request (baseUrl "backtests" (.pyStr "007") "UTC") ∧
    fstr (.pyStr "007") = "007" :=
  C8_amended "007" 7 "UTC" rfl

/-- C3 (counterexample): with `init_ahead=5` and `end_ahead=0` both
provided and `end_ahead <= init_ahead`, the operation does not raise: `0`
is falsy, so the `end_ahead` block and the ordering check are skipped, the
request is dispatched and a 200 response is returned. -/
theorem C3_counterexample :
    get_selected_backtests_prepare (.pyInt 42) none none (some 5) (some 0) "UTC" =
      .request "https://api.sirocco.energy/national/selectedbacktests/v1.1/?run=42&timezone=UTC&init_ahead=5" ∧
    get_selected_backtests (.pyInt 42) none none (some 5) (some 0) "UTC" (.response 200 .jNull) =
      .json .jNull :=
  ⟨rfl, rfl⟩

/-- C3 (amended): when both offsets are provided with nonzero values that
pass the non-negativity check (both positive) and `end_ahead <= init_ahead`,
the operation raises `ValueError` before the request is dispatched (the
prepare phase ends in the raise, so no network request occurs). -/
theorem C3_amended (i e : Int) (run : PyVal) (tz : String) (h : HttpOutcome)
    (hok : ∃ k, pyIntConv run = .ok k) (hi : 0 < i) (he : 0 < e) (hle : e ≤ i) :
    get_selected_backtests_prepare run none none (some i) (some e) tz =
      .raised (.valueError "Error: end_ahead must be greater than init_ahead") ∧
    get_selected_backtests run none none (some i) (some e) tz h =
      .raisedExn (.valueError "Error: end_ahead must be greater than init_ahead") := by
  obtain ⟨k, hk⟩ := hok
  have hine : i ≠ 0 := by omega
  have hene : e ≠ 0 := by omega
  have hineg : ¬ i < 0 := by omega
  have heneg : ¬ e < 0 := by omega
  have hprep : get_selected_backtests_prepare run none none (some i) (some e) tz =
      .raised (.valueError "Error: end_ahead must be greater than init_ahead") := by
    unfold get_selected_backtests_prepare
    simp [hk, datePart, truthyStr, aheadPart, truthyInt, hine, hene, hineg, heneg, hle]
  exact ⟨hprep, by simp [get_selected_backtests, hprep, runPrepared]⟩

/-- C3 (witness): the amended statement at the spec's own example
`run=42`, `init_ahead=30`, `end_ahead=10`. -/
theorem C3_witness :
    get_selected_backtests_prepare (.pyInt 42) none none (some 30) (some 10) "UTC" =
      .raised (.valueError "Error: end_ahead must be greater than init_ahead") ∧
    get_selected_backtests (.pyInt 42) none none (some 30) (some 10) "UTC" (.response 200 .jNull) =
      .raisedExn (.valueError "Error: end_ahead must be greater than init_ahead") :=
  C3_amended 30 10 (.pyInt 42) "UTC" (.response 200 .jNull) ⟨42, rfl⟩
    (by decide) (by decide) (by decide)

/-- C4: a provided negative `init_ahead` (resp. `end_ahead`) makes the
operation return the corresponding positive-integer error string, while a
provided non-negative offset is accepted: the prepare phase reaches the
request. -/
theorem C4_offsets (n m : Int) (run : PyVal) (tz : String)
    (hok : ∃ k, pyIntConv run = .ok k) (hn : n < 0) (hm : 0 ≤ m) :
    get_selected_backtests_prepare run none none (some n) none tz =
      .error "Error: init_ahead must be a positive integer" ∧
    get_selected_backtests_prepare run none none none (some n) tz =
      .error "Error: end_ahead must be a positive integer" ∧
    (∃ u, get_selected_backtests_prepare run none none (some m) none tz = .request u) ∧
    (∃ u, get_selected_backtests_prepare run none none none (some m) tz = .request u) := by
  obtain ⟨k, hk⟩ := hok
  have hnne : n ≠ 0 := by omega
  refine ⟨?_, ?_, ?_, ?_⟩
  · unfold get_selected_backtests_prepare
    simp [hk, datePart, truthyStr, aheadPart, truthyInt, hnne, hn]
  · unfold get_selected_backtests_prepare
    simp [hk, datePart, truthyStr, aheadPart, truthyInt, hnne, hn]
  · by_cases hm0 : m = 0
    · subst hm0
      refine ⟨baseUrl "selectedbacktests" run tz ++ "" ++ "" ++ "" ++ "", ?_⟩
      unfold get_selected_backtests_prepare
      simp [hk, datePart, truthyStr, aheadPart, truthyInt]
    · have hmneg : ¬ m < 0 := by omega
      refine ⟨baseUrl "selectedbacktests" run tz ++ "" ++ "" ++
        ("&init_ahead=" ++ toString m) ++ "", ?_⟩
      unfold get_selected_backtests_prepare
      simp [hk, datePart, truthyStr, aheadPart, truthyInt, hm0, hmneg]
  · by_cases hm0 : m = 0
    · subst hm0
      refine ⟨baseUrl "selectedbacktests" run tz ++ "" ++ "" ++ "" ++ "", ?_⟩
      unfold get_selected_backtests_prepare
      simp [hk, datePart, truthyStr, aheadPart, truthyInt]
    · have hmneg : ¬ m < 0 := by omega
      refine ⟨baseUrl "selectedbacktests" run tz ++ "" ++ "" ++ "" ++
        ("&end_ahead=" ++ toString m), ?_⟩
      unfold get_selected_backtests_prepare
      simp [hk, datePart, truthyStr, aheadPart, truthyInt, hm0, hmneg]

/-- C4 (witness): offsets `-5` (rejected with the exact error strings) and
`7` (accepted) for `run=1`. -/
theorem C4_witness :
    get_selected_backtests_prepare (.pyInt 1) none none (some (-5)) none "UTC" =
      .error "Error: init_ahead must be a positive integer" ∧
    get_selected_backtests_prepare (.pyInt 1) none none none (some (-5)) "UTC" =
      .error "Error: end_ahead must be a positive integer" ∧
    (∃ u, get_selected_backtests_prepare (.pyInt 1) none none (some 7) none "UTC" = .request u) ∧
    (∃ u, get_selected_backtests_prepare (.pyInt 1) none none none (some 7) "UTC" = .request u) :=
  C4_offsets (-5) 7 (.pyInt 1) "UTC" ⟨1, rfl⟩ (by decide) (by decide)

/-- C9: a zero offset is treated exactly as an absent one — the prepare
phase with `init_ahead=0` (resp. `end_ahead=0`) equals the prepare phase
with the offset absent, for all other arguments — so the parameter is
omitted from the URL, no error is produced, and the ordering check is
skipped; in particular `init_ahead=0` with `end_ahead=0` neither raises
nor returns an error: the request is dispatched and a 200 body
returned. -/
theorem C9_zero_offsets (run : PyVal) (i_d e_d : Option String)
    (v : Option Int) (tz : String) (h : HttpOutcome) :
    get_selected_backtests_prepare run i_d e_d (some 0) v tz =
      get_selected_backtests_prepare run i_d e_d none v tz ∧
    get_selected_backtests_prepare run i_d e_d v (some 0) tz =
      get_selected_backtests_prepare run i_d e_d v none tz ∧
    get_selected_backtests run i_d e_d (some 0) v tz h =
      get_selected_backtests run i_d e_d none v tz h ∧
    get_selected_backtests_prepare (.pyInt 1) none none (some 0) (some 0) "UTC" =
      .request "https://api.sirocco.energy/national/selectedbacktests/v1.1/?run=1&timezone=UTC" ∧
    get_selected_backtests (.pyInt 1) none none (some 0) (some 0) "UTC" (.response 200 .jNull) =
      .json .jNull := by
  have hinit : get_selected_backtests_prepare run i_d e_d (some 0) v tz =
      get_selected_backtests_prepare run i_d e_d none v tz := by
    unfold get_selected_backtests_prepare
    cases hr : pyIntConv run with
    | error ex => cases ex <;> rfl
    | ok k =>
      cases hd1 : datePart "init_date" i_d i_d "&init=" <;>
        cases hd2 : datePart "end_date" e_d e_d "&end=" <;>
          simp [aheadPart, truthyInt]
  have hend : get_selected_backtests_prepare run i_d e_d v (some 0) tz =
      get_selected_backtests_prepare run i_d e_d v none tz := by
    unfold get_selected_backtests_prepare
    cases hr : pyIntConv run with
    | error ex => cases ex <;> rfl
    | ok k =>
      cases hd1 : datePart "init_date" i_d i_d "&init=" <;>
        cases hd2 : datePart "end_date" e_d e_d "&end=" <;>
          simp [aheadPart, truthyInt]
  exact ⟨hinit, hend, by simp [get_selected_backtests, hinit], rfl, rfl⟩

/-- C6: each operation classifies the outcome of the GET request the same
way: a 200 response returns the parsed body unchanged, any other status
returns the exact status-code error string, and a transport exception
returns the exception string — shown for the unparameterized timezones
operation and for `get_selected_backtests` with valid parameters. -/
theorem C6_dispatch (body : JVal) (code : Nat) (m : String)
    (hcode : code ≠ 200) :
    get_available_timezones (.response 200 body) = .json body ∧
    get_available_timezones (.response code body) =
      .str ("Error: Received response with status code " ++ toString code) ∧
    get_available_timezones (.exn m) =
      .str ("Error: An exception occurred - " ++ m) ∧
    get_selected_backtests (.pyInt 42) none none none none "UTC" (.response 200 body) =
      .json body ∧
    get_selected_backtests (.pyInt 42) none none none none "UTC" (.response code body) =
      .str ("Error: Received response with status code " ++ toString code) ∧
    get_selected_backtests (.pyInt 42) none none none none "UTC" (.exn m) =
      .str ("Error: An exception occurred - " ++ m) := by
  have hb : (code == 200) = false := by simpa using hcode
  have hp : get_selected_backtests_prepare (.pyInt 42) none none none none "UTC" =
      .request "https://api.sirocco.energy/national/selectedbacktests/v1.1/?run=42&timezone=UTC" := rfl
  refine ⟨rfl, ?_, rfl, rfl, ?_, rfl⟩ <;>
    simp [get_available_timezones, get_available_timezones_prepare,
      get_selected_backtests, hp, runPrepared, requestOutcome, hb]

/-- C6 (witness): the classification at status 404 and exception message
"boom". -/
theorem C6_witness :
    get_available_timezones (.response 200 .jNull) = .json .jNull ∧
    get_available_timezones (.response 404 .jNull) =
      .str ("Error: Received response with status code " ++ toString 404) ∧
    get_available_timezones (.exn "boom") =
      .str ("Error: An exception occurred - " ++ "boom") ∧
    get_selected_backtests (.pyInt 42) none none none none "UTC" (.response 200 .jNull) =
      .json .jNull ∧
    get_selected_backtests (.pyInt 42) none none none none "UTC" (.response 404 .jNull) =
      .str ("Error: Received response with status code " ++ toString 404) ∧
    get_selected_backtests (.pyInt 42) none none none none "UTC" (.exn "boom") =
      .str ("Error: An exception occurred - " ++ "boom") :=
  C6_dispatch .jNull 404 "boom" (by decide)

/-- C5: every URL a parameterized operation dispatches starts from the
endpoint template with `run` and `timezone`, followed by the optional
parts in the fixed order init, end (then init_ahead, end_ahead for the
lead-time operation), each part present only when the corresponding
parameter was supplied and then equal to its key followed by the supplied
value; the spec's end-to-end example `run=42, init_ahead=10, end_ahead=30`
yields a query string ending in the two offset parts. -/
theorem C5_url (run : PyVal) (i_d e_d : Option String) (i_a e_a : Option Int)
    (tz u1 u2 u3 : String) :
    (get_selected_backtests_prepare run i_d e_d i_a e_a tz = .request u1 →
      ∃ p1 p2 p3 p4,
        u1 = baseUrl "selectedbacktests" run tz ++ p1 ++ p2 ++ p3 ++ p4 ∧
        optPartStr "&init=" i_d p1 ∧ optPartStr "&end=" e_d p2 ∧
        optPartInt "&init_ahead=" i_a p3 ∧ optPartInt "&end_ahead=" e_a p4) ∧
    (get_selected_forecast_prepare run tz i_d e_d = .request u2 →
      ∃ p1 p2, u2 = baseUrl "selectedforecast" run tz ++ p1 ++ p2 ∧
        optPartStr "&init=" i_d p1 ∧ optPartStr "&end=" e_d p2) ∧
    (get_backtests_info_prepare run tz i_d e_d = .request u3 →
      ∃ p1 p2, u3 = baseUrl "backtests" run tz ++ p1 ++ p2 ∧
        optPartStr "&init=" i_d p1 ∧ optPartStr "&end=" e_d p2) ∧
    get_forecasts_info_prepare run tz = .request (baseUrl "forecast" run tz) ∧
    get_selected_backtests_prepare (.pyInt 42) none none (some 10) (some 30) "UTC" =
      .request ("https://api.sirocco.energy/national/selectedbacktests/v1.1/?run=42&timezone=UTC" ++
        "&init_ahead=10&end_ahead=30") := by
  refine ⟨?_, ?_, ?_, rfl, rfl⟩
  · intro h
    obtain ⟨p1, p2, p3, p4, hu, h1, h2, h3, h4⟩ := gsb_prepare_request h
    exact ⟨p1, p2, p3, p4, hu, datePart_ok_spec h1, datePart_ok_spec h2,
      aheadPart_ok_spec h3, aheadPart_ok_spec h4⟩
  · intro h
    obtain ⟨p1, p2, hu, h1, h2⟩ := gsf_prepare_request h
    exact ⟨p1, p2, hu, datePart_ok_spec h1, datePart_ok_spec h2⟩
  · intro h
    obtain ⟨p1, p2, hu, h1, h2⟩ := gbi_prepare_request h
    exact ⟨p1, p2, hu, datePart_ok_spec h1, datePart_ok_spec h2⟩

/-- C5 (witness): the decomposition at the spec's example call. -/
theorem C5_witness :
    ∃ p1 p2 p3 p4,
      "https://api.sirocco.energy/national/selectedbacktests/v1.1/?run=42&timezone=UTC&init_ahead=10&end_ahead=30" =
        baseUrl "selectedbacktests" (.pyInt 42) "UTC" ++ p1 ++ p2 ++ p3 ++ p4 ∧
      optPartStr "&init=" none p1 ∧ optPartStr "&end=" none p2 ∧
      optPartInt "&init_ahead=" (some 10) p3 ∧ optPartInt "&end_ahead=" (some 30) p4 :=
  (C5_url (.pyInt 42) none none (some 10) (some 30) "UTC"
    "https://api.sirocco.energy/national/selectedbacktests/v1.1/?run=42&timezone=UTC&init_ahead=10&end_ahead=30"
    "" "").1 rfl

lemma isSuccessStr_false {c : JVal} (h : c ≠ .jStr "Success") :
    isSuccessStr c = false := by
  cases c <;> simp [isSuccessStr]
  rename_i s
  exact fun hs => h (by rw [hs])

/-- C7: a non-boolean `return_id_project` raises the hard validation error
whatever the network would do; with the flag true and a 200 body whose
control field is "Success" the result is the dict built from the `runs`
pairs; with the flag true and a control field different from "Success",
or with the flag false, the parsed body is returned unchanged. -/
theorem C7_projects (flag : PyVal) (h : HttpOutcome) (body : JVal) (c : JVal)
    (d : List (JVal × JVal)) :
    ((∀ b : Bool, flag ≠ .pyBool b) →
      get_my_projects flag h =
        .raisedExn (.valueError "Error: return_id_project must be a boolean")) ∧
    (subscr body "control" = .ok (.jStr "Success") → runsPairs body = .ok d →
      get_my_projects (.pyBool true) (.response 200 body) = .pydict (dictOfPairs d)) ∧
    (subscr body "control" = .ok c → c ≠ .jStr "Success" →
      get_my_projects (.pyBool true) (.response 200 body) = .json body) ∧
    get_my_projects (.pyBool false) (.response 200 body) = .json body := by
  refine ⟨?_, ?_, ?_, rfl⟩
  · intro hnb
    cases flag with
    | pyInt n => rfl
    | pyStr s => rfl
    | pyBool b => exact absurd rfl (hnb b)
    | pyNone => rfl
    | pyList xs => rfl
  · intro h1 h2
    simp [get_my_projects, h1, h2, isSuccessStr]
  · intro h1 hne
    simp [get_my_projects, h1, isSuccessStr_false hne]

/-- C7 (witness): the integer 3 as flag raises; a body with control
"Success" and two runs is transformed into the id-to-name dict; a body
with control "Fail" is returned unchanged, as is any 200 body when the
flag is false. -/
theorem C7_witness :
    get_my_projects (.pyInt 3) (.exn "x") =
      .raisedExn (.valueError "Error: return_id_project must be a boolean") ∧
    get_my_projects (.pyBool true)
      (.response 200 (.jObj [("control", .jStr "Success"),
        ("runs", .jArr [.jObj [("id", .jInt 5), ("name", .jStr "alpha")],
                        .jObj [("id", .jInt 6), ("name", .jStr "beta")]])])) =
      .pydict [(.jInt 5, .jStr "alpha"), (.jInt 6, .jStr "beta")] ∧
    get_my_projects (.pyBool true) (.response 200 (.jObj [("control", .jStr "Fail")])) =
      .json (.jObj [("control", .jStr "Fail")]) ∧
    get_my_projects (.pyBool false) (.response 200 (.jObj [("control", .jStr "Fail")])) =
      .json (.jObj [("control", .jStr "Fail")]) := by
  refine ⟨?_, ?_, ?_, ?_⟩
  · exact (C7_projects (.pyInt 3) (.exn "x") .jNull .jNull []).1
      (fun b hh => PyVal.noConfusion hh)
  · exact ((C7_projects (.pyBool true)
      (.response 200 (.jObj [("control", .jStr "Success"),
        ("runs", .jArr [.jObj [("id", .jInt 5), ("name", .jStr "alpha")],
                        .jObj [("id", .jInt 6), ("name", .jStr "beta")]])]))
      (.jObj [("control", .jStr "Success"),
        ("runs", .jArr [.jObj [("id", .jInt 5), ("name", .jStr "alpha")],
                        .jObj [("id", .jInt 6), ("name", .jStr "beta")]])])
      .jNull [(.jInt 5, .jStr "alpha"), (.jInt 6, .jStr "beta")]).2.1 rfl rfl).trans rfl
  · exact (C7_projects (.pyBool true) (.response 200 (.jObj [("control", .jStr "Fail")]))
      (.jObj [("control", .jStr "Fail")]) (.jStr "Fail") []).2.2.1 rfl (by simp)
  · exact (C7_projects (.pyBool false) (.response 200 (.jObj [("control", .jStr "Fail")]))
      (.jObj [("control", .jStr "Fail")]) .jNull []).2.2.2
